import Mathlib

/-!
Verification of the termux-app session multiplexer against its
natural-language specification.

The development shallowly embeds the Python source:
pure helpers become Lean functions, the mutable `TerminalSession` object
becomes a `Session` record threaded through each operation, filesystem and
PTY side effects become explicit effect lists, and raised exceptions become
`Option PyErr` results.  Python strings are modelled as `List Char`
(`PyStr`), so that `str.lstrip`, `os.path.join`, `os.path.normpath` and
`str.startswith` can be written as executable functions faithful to
CPython's posixpath semantics.
-/

namespace Termux

/-- Python strings, modelled as lists of characters. -/
abbrev PyStr := List Char

/-- The string `s.lstrip` with a slash argument: drop every leading slash
character.  Embeds the `path.lstrip` calls of `files_api.py` and
`terminal_service.py`. -/
def lstripSlash : PyStr → PyStr
  | [] => []
  | c :: cs => if c = '/' then lstripSlash cs else c :: cs

/-- posixpath `os.path.join a b`: an absolute second argument replaces the
first; otherwise the two are joined with a single slash unless the first
part is empty or already ends in a slash. -/
def pjoin (a b : PyStr) : PyStr :=
  if b.head? = some '/' then b
  else if a = [] ∨ a.getLast? = some '/' then a ++ b
  else a ++ '/' :: b

/-- Python `path.split` on a slash: components between slashes, keeping
empty components, as CPython's `str.split` does. -/
def splitSlash : PyStr → List PyStr
  | [] => [[]]
  | c :: cs =>
    if c = '/' then [] :: splitSlash cs
    else
      match splitSlash cs with
      | [] => [[c]]
      | h :: t => (c :: h) :: t

/-- One step of the component loop of CPython's `posixpath.normpath`.  The
accumulator holds the cleaned components in reverse.  Empty and dot
components are skipped; a dot-dot component pops the previous component
except at an absolute root or after an unresolvable leading dot-dot. -/
def normStep (initialSlashes : Bool) (acc : List PyStr) (comp : PyStr) : List PyStr :=
  if comp = [] ∨ comp = ['.'] then acc
  else if comp ≠ ['.', '.'] ∨ (¬ initialSlashes ∧ acc = []) ∨ acc.head? = some ['.', '.'] then
    comp :: acc
  else
    match acc with
    | [] => []
    | _ :: t => t

/-- CPython `posixpath.normpath`: lexical normalization.  Collapses
slashes and dots, resolves dot-dot components, and preserves the special
exactly-two-leading-slashes case. -/
def normpath (p : PyStr) : PyStr :=
  if p = [] then ['.']
  else
    let initialSlashes := p.head? = some '/'
    let slashes : Nat :=
      if initialSlashes then
        if p.take 2 = ['/', '/'] ∧ p.take 3 ≠ ['/', '/', '/'] then 2 else 1
      else 0
    let comps := ((splitSlash p).foldl (normStep initialSlashes) []).reverse
    let res := List.replicate slashes '/' ++ List.intercalate ['/'] comps
    if res = [] then ['.'] else res

/-- CPython `posixpath.abspath` relative to a current working directory:
join with the cwd (a no-op for absolute inputs) and normalize. -/
def abspath (cwd p : PyStr) : PyStr := normpath (pjoin cwd p)

/-- The filesystem surface touched by the file-listing endpoint, modelled
as oracles for `os.path.exists`, `os.path.isdir` and `os.listdir`. -/
structure FileSystem where
  present : PyStr → Bool
  isDir : PyStr → Bool
  listDir : PyStr → List PyStr

/-- The four response classes of `files_api.list_files`. -/
inductive FilesResponse where
  | invalidPath
  | pathMissing
  | notADirectory
  | ok (entries : List PyStr)
deriving DecidableEq

/-- The security check shared by every handler of `files_api.py` (and by
`terminal_service.get_session_files`): join the root with the
slash-stripped user path and require that the absolute form of the result
start with the absolute form of the root, as a string. -/
def security_check (cwd root userPath : PyStr) : Bool :=
  (abspath cwd root).isPrefixOf (abspath cwd (pjoin root (lstripSlash userPath)))

/-- `files_api.list_files`: guard first, then existence check, then
directory check, then the listing.  The second component records every
path the handler touches on the real filesystem; the guard itself performs
no filesystem access. -/
def list_files (cwd : PyStr) (fs : FileSystem) (root userPath : PyStr) :
    FilesResponse × List PyStr :=
  let absPath := pjoin root (lstripSlash userPath)
  if ¬ (abspath cwd root).isPrefixOf (abspath cwd absPath) then (.invalidPath, [])
  else if ¬ fs.present absPath then (.pathMissing, [absPath])
  else if ¬ fs.isDir absPath then (.notADirectory, [absPath])
  else (.ok (fs.listDir absPath), [absPath])

/-- Containment of a path below a root in the path sense, following the
spec's words: the canonical target equals the canonical root or extends it
across a separator.  This is the property the spec attributes to the
guard; the source's `startswith` test is strictly weaker. -/
def specPathPrefix (root p : PyStr) : Bool :=
  root == p || (root ++ ['/']).isPrefixOf p

/-- A filesystem oracle on which every path exists and is a directory,
used to witness that the handler does touch the filesystem once the guard
has passed. -/
def allDirsFs : FileSystem where
  present := fun _ => true
  isDir := fun _ => true
  listDir := fun _ => []

def demoCwd : PyStr := "/".data

def demoRoot : PyStr := "/app/storage/user_files".data

def siblingEscape : PyStr := "../user_files_secret/x".data

def dotDotEscape : PyStr := "../../etc/passwd".data

example : abspath demoCwd (pjoin demoRoot (lstripSlash siblingEscape)) =
    "/app/storage/user_files_secret/x".data := by decide

example : abspath demoCwd (pjoin demoRoot (lstripSlash dotDotEscape)) =
    "/app/etc/passwd".data := by decide

/-- Claim C1 is false on the code: the guard of `files_api.list_files` is a
plain string-prefix test, so the input `../user_files_secret/x` — which
resolves to a sibling directory whose name merely starts with the root's
name — passes the check, the handler proceeds to access a target that is
not under the canonical root in the path sense, and no `Invalid path`
rejection occurs. -/
theorem c1_sibling_directory_passes_guard :
    security_check demoCwd demoRoot siblingEscape = true ∧
    specPathPrefix (abspath demoCwd demoRoot)
      (abspath demoCwd (pjoin demoRoot (lstripSlash siblingEscape))) = false ∧
    (list_files demoCwd allDirsFs demoRoot siblingEscape).2 =
      ["/app/storage/user_files/../user_files_secret/x".data] ∧
    (list_files demoCwd allDirsFs demoRoot siblingEscape).1 ≠ FilesResponse.invalidPath := by
  refine ⟨by decide, by decide, by decide, by decide⟩

/-- Claim C1, amended: a file-listing or file-CRUD operation acts on the
target only if the normalized absolute path of (root joined with the
slash-stripped input) has the normalized absolute root as a plain string
prefix; when that string-prefix test fails the operation answers
`Invalid path` and touches no filesystem path.  Dot-dot inputs whose
resolution leaves the string prefix are therefore rejected, but inputs
resolving to a sibling directory whose name starts with the root's name
pass the test. -/
theorem c1_guard_string_prefix_only (cwd root userPath : PyStr) (fs : FileSystem) :
    ((list_files cwd fs root userPath).1 = FilesResponse.invalidPath ↔
      security_check cwd root userPath = false) ∧
    (security_check cwd root userPath = false →
      list_files cwd fs root userPath = (FilesResponse.invalidPath, [])) := by
  unfold list_files security_check
  cases h : List.isPrefixOf (abspath cwd root) (abspath cwd (pjoin root (lstripSlash userPath)))
  · simp [h]
  · cases hp : fs.present (pjoin root (lstripSlash userPath))
    · simp [h, hp]
    · cases hd : fs.isDir (pjoin root (lstripSlash userPath))
      · simp [h, hp, hd]
      · simp [h, hp, hd]

/-- Witness for the amended claim C1: the traversal input `../../etc/passwd`
fails the string-prefix test against the root `/app/storage/user_files`,
so the handler rejects it with `Invalid path` and performs no filesystem
access, exactly as the amended claim states. -/
theorem c1_guard_string_prefix_only_witness :
    list_files demoCwd allDirsFs demoRoot dotDotEscape =
      (FilesResponse.invalidPath, []) :=
  (c1_guard_string_prefix_only demoCwd demoRoot dotDotEscape allDirsFs).2 (by decide)

/-- Exceptions surfaced by `TerminalSession` and `TerminalService`
operations. -/
inductive PyErr where
  | notActive
  | notFound
  | osError
deriving DecidableEq

/-- The externally visible side effects of a `TerminalSession` operation,
in the order the source performs them. -/
inductive Effect where
  | ptyWrite (data : String)
  | ptySetWinsize (rows cols : Int)
  | screenResize (rows cols : Int)
  | ptyTerminateForce
  | readThreadJoin
  | streamFeed (payload : String)
  | callbackInvoke (cb : Nat) (sessionId : String) (payload : String)
  | rmtreeDir (dir : PyStr)
deriving DecidableEq

/-- The mutable state of one `TerminalSession` (`app/models/terminal_session.py`).
The pyte screen state is abstract in `σ`; the reading thread and the PTY
child live outside the record and show up as `Effect`s. -/
structure Session (σ : Type) where
  id : String
  shell : String
  cwd : PyStr
  cols : Int
  rows : Int
  createdAt : Nat
  lastActivity : Nat
  bufferSize : Nat
  outputBuffer : List String
  screen : σ
  active : Bool
  outputCallbacks : List Nat
  userDir : PyStr
deriving DecidableEq

/-- `collections.deque(maxlen=n).append`: append one frame, discarding
from the left when the deque is full.  This is the push operation of the
session's output ring buffer. -/
def dequeAppend (maxlen : Nat) (buf : List String) (frame : String) : List String :=
  if maxlen = 0 then []
  else if buf.length < maxlen then buf ++ [frame]
  else (buf.drop (buf.length + 1 - maxlen)) ++ [frame]

/-- The CPython slice `l[-k:]` for an integer `k`: a non-positive `k`
slices from index `-k` counted from the front (so `l[-0:]` is all of `l`),
a positive `k` takes the last `k` elements, clamped at the length. -/
def pyTailSlice (l : List String) (k : Int) : List String :=
  if k ≤ 0 then l.drop (-k).toNat
  else l.drop (l.length - k.toNat)

/-- `TerminalSession.get_buffer`: with no bound, the whole buffer; with a
bound smaller than the current size, the slice `buffer_list[-max_lines:]`;
otherwise the whole buffer. -/
def get_buffer (buf : List String) (maxLines : Option Int) : List String :=
  match maxLines with
  | none => buf
  | some k => if k < (buf.length : Int) then pyTailSlice buf k else buf

/-- `TerminalSession.write`: raise when the session is inactive, otherwise
bump `last_activity` and hand the encoded bytes to the PTY.  The returned
session is the object state after the call, errors included. -/
def Session.write (now : Nat) (s : Session σ) (data : String) :
    Option PyErr × Session σ × List Effect :=
  if ¬ s.active then (some .notActive, s, [])
  else (none, { s with lastActivity := now }, [.ptyWrite data])

/-- `TerminalSession.resize`: raise when inactive; otherwise record the new
`cols`/`rows` on the object, call `pty.setwinsize`, and only then resize
the pyte screen.  `ptyOk` models whether the `setwinsize` OS call
succeeds; when it raises, the already-updated `cols`/`rows` stay and the
screen is left untouched. -/
def Session.resize (resizeScreen : σ → Int → Int → σ) (ptyOk : Bool)
    (s : Session σ) (cols rows : Int) :
    Option PyErr × Session σ × List Effect :=
  if ¬ s.active then (some .notActive, s, [])
  else
    let s1 := { s with cols := cols, rows := rows }
    if ptyOk then
      (none, { s1 with screen := resizeScreen s1.screen rows cols },
        [.ptySetWinsize rows cols, .screenResize rows cols])
    else (some .osError, s1, [.ptySetWinsize rows cols])

/-- One non-EOF iteration of `TerminalSession._read_pty_output`: bump
`last_activity`, decode the bytes read with UTF-8 replacement, feed the
decoded text to the pyte stream, push the freshly rendered display into
the ring buffer, then invoke every registered output callback with the
session id and the same decoded text.  `decode`, `feed` and `render`
stand for the external `bytes.decode`, `pyte.Stream.feed` and the
`update_buffer` rendering of `screen.display`. -/
def Session.read_iteration (decode : List Nat → String) (feed : σ → String → σ)
    (render : σ → String) (now : Nat) (s : Session σ) (data : List Nat) :
    Session σ × List Effect :=
  if data = [] then (s, [])
  else
    let s1 := { s with lastActivity := now }
    let s2 := { s1 with screen := feed s1.screen (decode data) }
    let s3 := { s2 with
      outputBuffer := dequeAppend s2.bufferSize s2.outputBuffer (render s2.screen) }
    (s3, Effect.streamFeed (decode data) ::
      s.outputCallbacks.map (fun cb => Effect.callbackInvoke cb s.id (decode data)))

/-- `TerminalSession.terminate`: only an active session flips `active`,
force-terminates the PTY child and joins the reader thread; an inactive
session is left as is, and the method never raises. -/
def Session.terminate (s : Session σ) : Session σ × List Effect :=
  if s.active then ({ s with active := false }, [.ptyTerminateForce, .readThreadJoin])
  else (s, [])

/-- Path containment used by `shutil.rmtree`: a filesystem entry is removed
when it is the removed directory itself or lies below it. -/
def pathWithin (d p : PyStr) : Bool :=
  d == p || (d ++ ['/']).isPrefixOf p

/-- `shutil.rmtree` over a filesystem modelled as the list of existing
paths: every entry at or below the directory disappears. -/
def rmtree (fsPaths : List PyStr) (d : PyStr) : List PyStr :=
  fsPaths.filter (fun p => ¬ pathWithin d p)

/-- `os.path.exists` over a filesystem modelled as the list of existing
paths. -/
def fsPathExists (fsPaths : List PyStr) (p : PyStr) : Bool :=
  fsPaths.contains p

/-- `TerminalSession.cleanup`: terminate first, then remove the session's
workspace directory tree exactly when `remove_files` is set and the
directory exists. -/
def Session.cleanup (s : Session σ) (fsPaths : List PyStr) (removeFiles : Bool) :
    Session σ × List PyStr × List Effect :=
  let t := s.terminate
  if removeFiles ∧ fsPathExists fsPaths s.userDir then
    (t.1, rmtree fsPaths s.userDir, t.2 ++ [.rmtreeDir s.userDir])
  else (t.1, fsPaths, t.2)

/-- Assignment into a Python dict modelled as an association list:
overwrite in place when the key exists, append otherwise. -/
def dictSet (m : List (String × α)) (k : String) (v : α) : List (String × α) :=
  if m.any (fun kv => kv.1 == k) then
    m.map (fun kv => if kv.1 == k then (k, v) else kv)
  else m ++ [(k, v)]

/-- One `TerminalService` instance (`terminal_service.py`): the
`self.sessions` dict and the inactivity timeout its constructor sets. -/
structure TerminalService (σ : Type) where
  sessions : List (String × Session σ)
  inactiveTimeout : Nat

/-- `TerminalService.__init__`: a fresh instance starts with an empty
session dict and the default one-hour timeout.  Every module-level
`TerminalService()` call produces one such value. -/
def TerminalService.init (σ : Type) : TerminalService σ := ⟨[], 3600⟩

/-- `TerminalService.get_session`: dict lookup by id. -/
def TerminalService.get_session (svc : TerminalService σ) (sid : String) :
    Option (Session σ) :=
  (svc.sessions.find? (fun kv => kv.1 == sid)).map Prod.snd

/-- The `_broadcast_output` callback the service registers on every
session it creates, identified by a fixed token. -/
def broadcastCallback : Nat := 0

/-- `TerminalService.create_session`: construct the session, register the
service's broadcast callback on it, and store it in `self.sessions` under
its id. -/
def TerminalService.create_session (svc : TerminalService σ) (s : Session σ) :
    TerminalService σ × Session σ :=
  let s1 := { s with outputCallbacks := s.outputCallbacks ++ [broadcastCallback] }
  ({ svc with sessions := dictSet svc.sessions s1.id s1 }, s1)

/-- The module-level state of the process after the imports of
`backend/app.py`: `terminal_api.py` line 6, `terminal_ws.py` line 4 and
`maintenance_api.py` line 5 each execute their own `TerminalService()`
call, so the process holds three independent service instances. -/
structure ProcessState (σ : Type) where
  terminalApiService : TerminalService σ
  terminalWsService : TerminalService σ
  maintenanceService : TerminalService σ

/-- Import-time initialization: each module constructs a fresh, empty
`TerminalService`. -/
def importModules (σ : Type) : ProcessState σ :=
  ⟨TerminalService.init σ, TerminalService.init σ, TerminalService.init σ⟩

/-- The HTTP `POST /api/terminal/sessions` handler
(`terminal_api.create_session`): it calls `create_session` on the
`terminal_api` module's own service instance. -/
def http_create_session (p : ProcessState σ) (s : Session σ) :
    ProcessState σ × Session σ :=
  let r := p.terminalApiService.create_session s
  ({ p with terminalApiService := r.1 }, r.2)

/-- The registry lookup done by the WebSocket `join` handler
(`terminal_ws.handle_join`): it consults the `terminal_ws` module's own
service instance. -/
def ws_join_lookup (p : ProcessState σ) (sid : String) : Option (Session σ) :=
  p.terminalWsService.get_session sid

/-- The registry lookup behind the WebSocket `input` handler
(`terminal_ws.handle_input` via `write_to_session`): the same
`terminal_ws` module instance. -/
def ws_input_lookup (p : ProcessState σ) (sid : String) : Option (Session σ) :=
  p.terminalWsService.get_session sid

/-- The session map the maintenance cleanup endpoint iterates over:
`maintenance_api.cleanup_sessions` constructs `current_service =
TerminalService()` afresh inside the request handler, so it walks the
id map of a brand-new instance. -/
def maintenance_cleanup_session_ids (σ : Type) (_p : ProcessState σ) : List String :=
  (TerminalService.init σ).sessions.map Prod.fst

/-- Python truthiness of an optional integer field of a JSON body:
a missing field and a zero value are both falsy. -/
def pyTruthy : Option Int → Bool
  | none => false
  | some n => n != 0

/-- The HTTP `POST /api/terminal/sessions/(id)/size` handler
(`terminal_api.resize_session`): missing or falsy `cols`/`rows` answer
400; everything the service raises — unknown id, inactive session, a
failing `setwinsize` — is caught by the blanket `except` and answered
500. -/
def resize_session_handler (svc : TerminalService σ) (sid : String)
    (cols rows : Option Int) (ptyOk : Bool) : Nat × String :=
  if ¬ pyTruthy cols ∨ ¬ pyTruthy rows then (400, "Both cols and rows are required")
  else
    match svc.get_session sid with
    | none => (500, "Session not found")
    | some s =>
      if ¬ s.active then (500, "Session is no longer active")
      else if ptyOk then (200, "success")
      else (500, "OSError")

/-- The HTTP `DELETE /api/terminal/sessions/(id)` handler
(`terminal_api.terminate_session`): a raised `Session not found` is
caught by the blanket `except` and answered 500; a found session is
cleaned up and answered with success. -/
def terminate_session_handler (svc : TerminalService σ) (sid : String) :
    Nat × String :=
  match svc.get_session sid with
  | none => (500, "Session not found")
  | some _ => (200, "success")

/-- Contents that can occupy a workspace artifact file.  Each generated
artifact of the two setup routines gets its own tag (the generator is a
pure function of the session id, so a tag together with the id determines
the bytes written); `preexisting` stands for whatever content a file held
before setup ran. -/
inductive RcContent where
  | appBashrc (sessionId : String)
  | appBashProfile
  | appEmptyHistory
  | appVimrc
  | appTmuxConf
  | appInputrc
  | appReadme (sessionId : String)
  | appExamplePy
  | backendBashrc
  | backendEmptyHistory
  | backendVimrc
  | preexisting (content : String)
deriving DecidableEq

/-- A directory of regular files, modelled as an association list from
path to content. -/
abbrev RcFs := List (PyStr × RcContent)

/-- Content of a file, `None` when the path does not exist. -/
def fsGet (fs : RcFs) (p : PyStr) : Option RcContent :=
  (fs.find? (fun kv => kv.1 == p)).map Prod.snd

/-- `open(p, mode) ... write(c)` in write mode: create or truncate-and-
replace the file at `p`. -/
def fsSet (fs : RcFs) (p : PyStr) (c : RcContent) : RcFs :=
  (p, c) :: fs.filter (fun kv => ! (kv.1 == p))

/-- `os.path.exists p` over the modelled directory. -/
def fsHas (fs : RcFs) (p : PyStr) : Bool :=
  (fsGet fs p).isSome

/-- `TerminalSession._setup_user_environment` (the isolated-workspace
tree, `app/models/terminal_session.py`): open each rc artifact in write
mode unconditionally, clobbering whatever was there — `.bashrc`,
`.bash_profile`, a truncated `.bash_history`, `.vimrc`, `.tmux.conf`,
`.inputrc` under the session home, and `README.txt` plus `example.py`
under the session files directory. -/
def setup_user_environment (sessionId : String) (userHome userFiles : PyStr)
    (fs : RcFs) : RcFs :=
  let fs1 := fsSet fs (pjoin userHome ".bashrc".data) (.appBashrc sessionId)
  let fs2 := fsSet fs1 (pjoin userHome ".bash_profile".data) .appBashProfile
  let fs3 := fsSet fs2 (pjoin userHome ".bash_history".data) .appEmptyHistory
  let fs4 := fsSet fs3 (pjoin userHome ".vimrc".data) .appVimrc
  let fs5 := fsSet fs4 (pjoin userHome ".tmux.conf".data) .appTmuxConf
  let fs6 := fsSet fs5 (pjoin userHome ".inputrc".data) .appInputrc
  let fs7 := fsSet fs6 (pjoin userFiles "README.txt".data) (.appReadme sessionId)
  fsSet fs7 (pjoin userFiles "example.py".data) .appExamplePy

/-- One `if not os.path.exists(p): open(p, w).write(c)` block of the
backend setup: write the file only when it is absent. -/
def writeIfAbsent (fs : RcFs) (k : PyStr) (c : RcContent) : RcFs :=
  if fsHas fs k then fs else fsSet fs k c

/-- `TerminalSession._ensure_shell_rc_exists` (the backend tree,
`backend/app/models/terminal_session.py`): write `.bashrc`,
`.bash_history` and `.vimrc` under the home directory only when the file
does not already exist. -/
def ensure_shell_rc_exists (homeDir : PyStr) (fs : RcFs) : RcFs :=
  writeIfAbsent
    (writeIfAbsent
      (writeIfAbsent fs (pjoin homeDir ".bashrc".data) .backendBashrc)
      (pjoin homeDir ".bash_history".data) .backendEmptyHistory)
    (pjoin homeDir ".vimrc".data) .backendVimrc

/-- A concrete running session used by the closed theorems: the state of a
freshly spawned `TerminalSession` whose uuid rendered as `sess-1`. -/
def demoSession : Session Unit where
  id := "sess-1"
  shell := "/bin/bash"
  cwd := "/data/storage/users/sess-1/files".data
  cols := 80
  rows := 24
  createdAt := 1000
  lastActivity := 1000
  bufferSize := 10000
  outputBuffer := []
  screen := ()
  active := true
  outputCallbacks := [0, 1]
  userDir := "/data/storage/users/sess-1".data

/-- The same session after its shell has exited: `active` has been set to
`False` by `terminate`. -/
def demoInactiveSession : Session Unit :=
  { demoSession with active := false }

/-- Claim C2 is false on the code, which contradicts the system's own
point — routing WebSocket input and output for HTTP-created sessions.
`terminal_api.py`, `terminal_ws.py` and `maintenance_api.py` each execute
their own `TerminalService()` at import, so a session stored by the HTTP
POST handler is found again by the HTTP module's instance but a WebSocket
`join` or `input` lookup with the same id misses (answering `Session not
found`), and the maintenance endpoint iterates over the empty map of yet
another freshly constructed instance. -/
theorem c2_entry_points_use_disjoint_registries :
    (http_create_session (importModules Unit) demoSession).1.terminalApiService.get_session
        "sess-1" =
      some { demoSession with
        outputCallbacks := demoSession.outputCallbacks ++ [broadcastCallback] } ∧
    ws_join_lookup (http_create_session (importModules Unit) demoSession).1 "sess-1" = none ∧
    ws_input_lookup (http_create_session (importModules Unit) demoSession).1 "sess-1" = none ∧
    maintenance_cleanup_session_ids Unit
      (http_create_session (importModules Unit) demoSession).1 = [] := by
  refine ⟨by decide, rfl, rfl, rfl⟩

/-- Claim C3 is false on the code at `max_lines = 0`, contradicting the
method's own docstring (`max_lines`: maximum number of lines to return):
because the CPython slice `buffer_list[-0:]` is `buffer_list[0:]`,
`get_buffer(0)` on a one-frame buffer returns that frame instead of zero
frames. -/
theorem c3_get_buffer_zero_returns_whole_buffer :
    get_buffer (dequeAppend 10000 [] "frame0") (some 0) = ["frame0"] ∧
    (get_buffer (dequeAppend 10000 [] "frame0") (some 0)).length ≠ 0 := by
  refine ⟨by decide, by decide⟩

/-- Claim C4 is false on the code: on an active 80×24 session whose
`pty.setwinsize` call fails, `resize` has already recorded the new
dimensions (cols 132 ≠ 80), the only effect performed is the PTY window
call — so the PTY is touched first and the emulator not at all — the
error that propagates is the OS error, not `NotActive`, and nothing is
rolled back. -/
theorem c4_resize_counterexample :
    (Session.resize (fun s _ _ => s) false demoSession 132 40).1 = some PyErr.osError ∧
    (Session.resize (fun s _ _ => s) false demoSession 132 40).2.1.cols = 132 ∧
    demoSession.cols = 80 ∧
    (Session.resize (fun s _ _ => s) false demoSession 132 40).2.2 =
      [Effect.ptySetWinsize 40 132] := by
  refine ⟨rfl, rfl, rfl, rfl⟩

/-- Claim C4, amended: `resize` on an inactive session reports `NotActive`
and changes nothing; on an active session it records the new `cols`/`rows`
on the session object, then applies them to the PTY window, and only then
to the emulator.  If the PTY call fails, the session's recorded
dimensions keep the new values, the emulator keeps its old state, and the
error reported is the OS error — there is no rollback and no `NotActive`
report on that path. -/
theorem c4_resize_pty_first_no_rollback {σ : Type}
    (resizeScreen : σ → Int → Int → σ) (s : Session σ) (cols rows : Int) :
    (s.active = false → ∀ ptyOk,
      Session.resize resizeScreen ptyOk s cols rows = (some PyErr.notActive, s, [])) ∧
    (s.active = true →
      Session.resize resizeScreen true s cols rows =
        (none,
          { s with
            cols := cols
            rows := rows
            screen := resizeScreen s.screen rows cols },
          [Effect.ptySetWinsize rows cols, Effect.screenResize rows cols]) ∧
      Session.resize resizeScreen false s cols rows =
        (some PyErr.osError, { s with cols := cols, rows := rows },
          [Effect.ptySetWinsize rows cols])) := by
  cases h : s.active <;> simp [Session.resize, h]

/-- Witness for the amended claim C4: on the inactive demo session the
call reports `NotActive` and leaves the session unchanged, and on the
active demo session with a failing PTY call the recorded width becomes
132 while the error is the OS error. -/
theorem c4_resize_pty_first_no_rollback_witness :
    Session.resize (fun s _ _ => s) true demoInactiveSession 132 40 =
      (some PyErr.notActive, demoInactiveSession, []) ∧
    (Session.resize (fun s _ _ => s) false demoSession 132 40).2.1.cols = 132 :=
  ⟨(c4_resize_pty_first_no_rollback (fun s _ _ => s) demoInactiveSession 132 40).1 rfl true,
    by rw [((c4_resize_pty_first_no_rollback (fun s _ _ => s) demoSession 132 40).2 rfl).2]⟩

/-- Claim C5, confirmed: in one PTY read iteration, every output callback
registered at the time of the read is invoked exactly with the session id
and the UTF-8 decoding of the raw bytes that read returned — the very
value fed to the emulator, not a rendering of the screen — so any two
callbacks observe identical payloads, whatever the decoder, emulator and
renderer do. -/
theorem c5_fanout_identical_raw_payload {σ : Type} (decode : List Nat → String)
    (feed : σ → String → σ) (render : σ → String) (now : Nat)
    (s : Session σ) (data : List Nat) (h : data ≠ []) :
    (∀ cb, cb ∈ s.outputCallbacks →
      Effect.callbackInvoke cb s.id (decode data) ∈
        (Session.read_iteration decode feed render now s data).2) ∧
    (∀ cb sid p,
      Effect.callbackInvoke cb sid p ∈
          (Session.read_iteration decode feed render now s data).2 →
      p = decode data ∧ sid = s.id) ∧
    Effect.streamFeed (decode data) ∈
      (Session.read_iteration decode feed render now s data).2 := by
  unfold Session.read_iteration
  simp only [if_neg h]
  refine ⟨?_, ?_, ?_⟩
  · intro cb hcb
    exact List.mem_cons_of_mem _ (List.mem_map_of_mem _ hcb)
  · intro cb sid p hp
    rcases List.mem_cons.mp hp with he | he
    · cases he
    · rcases List.mem_map.mp he with ⟨cb2, _, he2⟩
      cases he2
      exact ⟨rfl, rfl⟩
  · exact List.mem_cons_self _ _

/-- A stand-in for `bytes.decode` with replacement in the closed witness. -/
def demoDecode : List Nat → String := fun _ => "hi"

/-- Witness for claim C5: on the demo session with two registered
callbacks, a read of the bytes `[104, 105]` delivers the decoded payload
to callback 0, and any payload delivered to any callback equals that
decoded value. -/
theorem c5_fanout_identical_raw_payload_witness :
    Effect.callbackInvoke 0 "sess-1" (demoDecode [104, 105]) ∈
      (Session.read_iteration demoDecode (fun u _ => u) (fun _ => "render")
        2000 demoSession [104, 105]).2 :=
  (c5_fanout_identical_raw_payload demoDecode (fun u _ => u) (fun _ => "render")
    2000 demoSession [104, 105] (by decide)).1 0 (by decide)

/-- Claim C6, confirmed: `cleanup` removes the session's workspace
directory tree exactly when `remove_files` is true — afterwards the
workspace root no longer exists — and with `remove_files` false the
filesystem is left entirely unchanged. -/
theorem c6_cleanup_removes_workspace_iff_flag {σ : Type} (s : Session σ)
    (fsPaths : List PyStr) (b : Bool) :
    fsPathExists (s.cleanup fsPaths true).2.1 s.userDir = false ∧
    (s.cleanup fsPaths false).2.1 = fsPaths ∧
    fsPathExists (s.cleanup fsPaths b).2.1 s.userDir =
      (!b && fsPathExists fsPaths s.userDir) := by
  have hrm : ∀ l : List PyStr, fsPathExists (rmtree l s.userDir) s.userDir = false := by
    intro l
    simp only [fsPathExists, List.contains, List.elem_eq_mem, decide_eq_false_iff_not]
    intro hmem
    have := List.of_mem_filter hmem
    simp [pathWithin] at this
  refine ⟨?_, by simp [Session.cleanup], ?_⟩
  · unfold Session.cleanup
    cases hc : fsPathExists fsPaths s.userDir
    · simp [hc]
    · simp [hc, hrm]
  · cases b
    · simp [Session.cleanup]
    · unfold Session.cleanup
      cases hc : fsPathExists fsPaths s.userDir
      · simp [hc]
      · simp [hc, hrm]

/-- Claim C7, confirmed: `terminate` is idempotent.  One call leaves the
session inactive; a second call finds `active` false, performs no kill and
no join, returns without error, and leaves the state exactly as the first
call left it — so `terminate; terminate` equals `terminate` in both final
state and accumulated side effects. -/
theorem c7_terminate_idempotent {σ : Type} (s : Session σ) :
    Session.terminate (s.terminate).1 = ((s.terminate).1, []) ∧
    (s.terminate).1.active = false := by
  cases h : s.active <;> simp [Session.terminate, h]

/-- Claim C10, confirmed: `write` on a session whose `active` flag is
false raises the not-active error before touching anything — the returned
state is the input state (so `last_activity` keeps its prior value and the
output buffer is untouched) and no bytes reach the PTY. -/
theorem c10_write_atomic_on_error {σ : Type} (now : Nat) (s : Session σ)
    (data : String) (h : s.active = false) :
    s.write now data = (some PyErr.notActive, s, []) := by
  simp [Session.write, h]

/-- Witness for claim C10: writing to the terminated demo session reports
the not-active error, leaves the session record untouched and emits no PTY
write. -/
theorem c10_write_atomic_on_error_witness :
    Session.write 2000 demoInactiveSession "ls" =
      (some PyErr.notActive, demoInactiveSession, []) :=
  c10_write_atomic_on_error 2000 demoInactiveSession "ls" rfl

/-- Claim C8 is false on the code: with an empty registry, both the
resize handler (well-formed body) and the delete handler answer HTTP 500
for an unknown session id, because `Session not found` is raised by the
service and swallowed by the handlers' blanket `except`, which maps every
exception to 500 — the claim requires 404 and forbids 500 here. -/
theorem c8_unknown_session_yields_500 :
    resize_session_handler (TerminalService.init Unit) "missing"
        (some 132) (some 40) true = (500, "Session not found") ∧
    (resize_session_handler (TerminalService.init Unit) "missing"
        (some 132) (some 40) true).1 ≠ 404 ∧
    terminate_session_handler (TerminalService.init Unit) "missing" =
      (500, "Session not found") ∧
    (terminate_session_handler (TerminalService.init Unit) "missing").1 ≠ 404 := by
  refine ⟨rfl, by decide, rfl, by decide⟩

/-- Claim C8, amended: a resize request whose body is missing `cols` or
`rows` (or carries a falsy zero) is answered 400, while an unknown
session id makes both `POST .../size` and `DELETE .../sessions/(id)`
answer 500 with the `Session not found` message — not 404, which these
handlers never produce. -/
theorem c8_error_statuses {σ : Type} (svc : TerminalService σ) (sid : String)
    (cols rows : Option Int) (ptyOk : Bool) :
    (pyTruthy cols = false ∨ pyTruthy rows = false →
      resize_session_handler svc sid cols rows ptyOk =
        (400, "Both cols and rows are required")) ∧
    (pyTruthy cols = true → pyTruthy rows = true → svc.get_session sid = none →
      resize_session_handler svc sid cols rows ptyOk =
        (500, "Session not found")) ∧
    (svc.get_session sid = none →
      terminate_session_handler svc sid = (500, "Session not found")) := by
  refine ⟨?_, ?_, ?_⟩
  · intro h
    rcases h with h | h <;> simp [resize_session_handler, h]
  · intro hc hr hn
    simp [resize_session_handler, hc, hr, hn]
  · intro hn
    simp [terminate_session_handler, hn]

/-- Witness for the amended claim C8: against a fresh registry, a resize
body missing `cols` is answered 400, and deleting an unknown id is
answered 500 `Session not found`. -/
theorem c8_error_statuses_witness :
    resize_session_handler (TerminalService.init Unit) "missing" none (some 40) true =
      (400, "Both cols and rows are required") ∧
    terminate_session_handler (TerminalService.init Unit) "missing" =
      (500, "Session not found") :=
  ⟨(c8_error_statuses (TerminalService.init Unit) "missing" none (some 40) true).1
      (Or.inl rfl),
    (c8_error_statuses (TerminalService.init Unit) "missing" none (some 40) true).2.2 rfl⟩

/-- Looking up a key in a file map cons cell. -/
theorem fsGet_cons (k : PyStr) (v : RcContent) (fs : RcFs) (q : PyStr) :
    fsGet ((k, v) :: fs) q = if k == q then some v else fsGet fs q := by
  unfold fsGet
  cases h : k == q <;> simp [List.find?, h]

/-- Removing the entries at one path leaves every other path's content
unchanged. -/
theorem fsGet_filter_ne (fs : RcFs) (p q : PyStr) (h : ¬ q = p) :
    fsGet (fs.filter (fun kv => ! (kv.1 == p))) q = fsGet fs q := by
  induction fs with
  | nil => rfl
  | cons kv rest ih =>
    by_cases hk : kv.1 = p
    · have hfilter : (kv :: rest).filter (fun kv => ! (kv.1 == p)) =
          rest.filter (fun kv => ! (kv.1 == p)) := by
        simp [List.filter, hk]
      rw [hfilter, ih]
      have hkq : (kv.1 == q) = false := by
        simp only [beq_eq_false_iff_ne, ne_eq, hk]
        exact fun he => h he.symm
      rcases kv with ⟨k, v⟩
      rw [fsGet_cons, hkq]
      simp
    · have hb : (kv.1 == p) = false := beq_eq_false_iff_ne.mpr hk
      have hfilter : (kv :: rest).filter (fun kv => ! (kv.1 == p)) =
          kv :: rest.filter (fun kv => ! (kv.1 == p)) := by
        simp [List.filter, hb]
      rcases kv with ⟨k, v⟩
      rw [hfilter, fsGet_cons, fsGet_cons, ih]

/-- `fsSet` writes exactly one path and preserves all others. -/
theorem fsGet_fsSet (fs : RcFs) (p : PyStr) (c : RcContent) (q : PyStr) :
    fsGet (fsSet fs p c) q = if q = p then some c else fsGet fs q := by
  unfold fsSet
  rw [fsGet_cons]
  by_cases h : q = p
  · simp [h]
  · rw [fsGet_filter_ne fs p q h]
    have hb : (p == q) = false := by
      simp only [beq_eq_false_iff_ne, ne_eq]
      exact fun he => h he.symm
    rw [hb]
    simp [h]

/-- A conditional write-if-absent step leaves the content of every path
that already exists unchanged. -/
theorem writeIfAbsent_preserves (fs : RcFs) (k : PyStr) (c : RcContent)
    (p : PyStr) (hp : fsHas fs p = true) :
    fsGet (writeIfAbsent fs k c) p = fsGet fs p := by
  unfold writeIfAbsent
  by_cases h : fsHas fs k = true
  · rw [if_pos h]
  · rw [if_neg h, fsGet_fsSet]
    have hne : ¬ p = k := by
      intro he
      subst he
      exact h hp
    rw [if_neg hne]

/-- A conditional write-if-absent step keeps every existing path
existing. -/
theorem writeIfAbsent_has (fs : RcFs) (k : PyStr) (c : RcContent)
    (p : PyStr) (hp : fsHas fs p = true) :
    fsHas (writeIfAbsent fs k c) p = true := by
  unfold writeIfAbsent
  by_cases h : fsHas fs k = true
  · rw [if_pos h]
    exact hp
  · rw [if_neg h]
    unfold fsHas at hp ⊢
    rw [fsGet_fsSet]
    by_cases hpk : p = k
    · simp [hpk]
    · rw [if_neg hpk]
      exact hp

/-- After a conditional write-if-absent step the written path exists. -/
theorem writeIfAbsent_self (fs : RcFs) (k : PyStr) (c : RcContent) :
    fsHas (writeIfAbsent fs k c) k = true := by
  unfold writeIfAbsent
  by_cases h : fsHas fs k = true
  · rw [if_pos h]
    exact h
  · rw [if_neg h]
    unfold fsHas
    rw [fsGet_fsSet]
    simp

/-- A conditional write to an already-present path is a no-op. -/
theorem writeIfAbsent_of_has (fs : RcFs) (k : PyStr) (c : RcContent)
    (h : fsHas fs k = true) : writeIfAbsent fs k c = fs := by
  unfold writeIfAbsent
  rw [if_pos h]

/-- After `_ensure_shell_rc_exists` each of the three artifacts exists. -/
theorem ensure_has_artifacts (homeDir : PyStr) (fs : RcFs) :
    fsHas (ensure_shell_rc_exists homeDir fs) (pjoin homeDir ".bashrc".data) = true ∧
    fsHas (ensure_shell_rc_exists homeDir fs) (pjoin homeDir ".bash_history".data) = true ∧
    fsHas (ensure_shell_rc_exists homeDir fs) (pjoin homeDir ".vimrc".data) = true := by
  unfold ensure_shell_rc_exists
  refine ⟨?_, ?_, ?_⟩
  · exact writeIfAbsent_has _ _ _ _
      (writeIfAbsent_has _ _ _ _ (writeIfAbsent_self fs _ _))
  · exact writeIfAbsent_has _ _ _ _ (writeIfAbsent_self _ _ _)
  · exact writeIfAbsent_self _ _ _

/-- The content of each path after `_setup_user_environment`: every one of
the eight artifact paths now holds its generated content, and every other
path is untouched. -/
theorem fsGet_setup (sessionId : String) (userHome userFiles : PyStr)
    (fs : RcFs) (p : PyStr) :
    fsGet (setup_user_environment sessionId userHome userFiles fs) p =
      if p = pjoin userFiles "example.py".data then some RcContent.appExamplePy
      else if p = pjoin userFiles "README.txt".data then
        some (RcContent.appReadme sessionId)
      else if p = pjoin userHome ".inputrc".data then some RcContent.appInputrc
      else if p = pjoin userHome ".tmux.conf".data then some RcContent.appTmuxConf
      else if p = pjoin userHome ".vimrc".data then some RcContent.appVimrc
      else if p = pjoin userHome ".bash_history".data then
        some RcContent.appEmptyHistory
      else if p = pjoin userHome ".bash_profile".data then
        some RcContent.appBashProfile
      else if p = pjoin userHome ".bashrc".data then
        some (RcContent.appBashrc sessionId)
      else fsGet fs p := by
  unfold setup_user_environment
  simp only [fsGet_fsSet]

/-- Joining a relative name onto any base keeps the name's last
character. -/
theorem pjoin_getLast (a b : PyStr) (x : Char) (hh : b.head? ≠ some '/')
    (hl : b.getLast? = some x) : (pjoin a b).getLast? = some x := by
  unfold pjoin
  rw [if_neg hh]
  by_cases h : a = [] ∨ a.getLast? = some '/'
  · rw [if_pos h, List.getLast?_append, hl]
    rfl
  · rw [if_neg h]
    have hsplit : a ++ '/' :: b = a ++ (['/'] ++ b) := rfl
    rw [hsplit, List.getLast?_append, List.getLast?_append, hl]
    rfl

/-- Joining two relative names onto the same base gives equal paths only
for equal names. -/
theorem pjoin_right_inj (a b c : PyStr) (hb : b.head? ≠ some '/')
    (hc : c.head? ≠ some '/') (he : pjoin a b = pjoin a c) : b = c := by
  unfold pjoin at he
  rw [if_neg hb, if_neg hc] at he
  by_cases h : a = [] ∨ a.getLast? = some '/'
  · rw [if_pos h, if_pos h] at he
    exact List.append_cancel_left he
  · rw [if_neg h, if_neg h] at he
    have hcons := List.append_cancel_left he
    injection hcons

/-- The home directory of the demo session's workspace. -/
def homeDemo : PyStr := "/data/storage/users/sess-1/home".data

/-- The files directory of the demo session's workspace. -/
def filesDemo : PyStr := "/data/storage/users/sess-1/files".data

/-- A workspace whose `.bashrc` already carries user-written content. -/
def fs9 : RcFs :=
  fsSet [] (pjoin homeDemo ".bashrc".data) (.preexisting "custom user rc")

/-- Claim C9 is false on the code of the isolated-workspace tree:
`_setup_user_environment` opens every rc artifact in write mode
unconditionally, so a `.bashrc` that already held user content is
clobbered with the generated content when setup runs again over the same
workspace. -/
theorem c9_setup_overwrites_existing_bashrc :
    fsGet fs9 (pjoin homeDemo ".bashrc".data) =
      some (RcContent.preexisting "custom user rc") ∧
    fsGet (setup_user_environment "sess-1" homeDemo filesDemo fs9)
        (pjoin homeDemo ".bashrc".data) =
      some (RcContent.appBashrc "sess-1") ∧
    some (RcContent.appBashrc "sess-1") ≠
      some (RcContent.preexisting "custom user rc") := by
  refine ⟨by decide, by decide, by decide⟩

/-- Claim C9, amended: only the backend tree's `_ensure_shell_rc_exists`
is write-if-absent — it never changes the content of a file that already
exists, and running it twice equals running it once.  The
isolated-workspace tree's `_setup_user_environment` instead rewrites every
rc artifact with its generated content on every run (clobbering
pre-existing content, `.bashrc` included); it is still idempotent in the
sense that a second run writes the same bytes again. -/
theorem c9_rc_setup_write_if_absent_vs_overwrite (sessionId : String)
    (userHome userFiles homeDir : PyStr) :
    (∀ fs p, fsHas fs p = true →
      fsGet (ensure_shell_rc_exists homeDir fs) p = fsGet fs p) ∧
    (∀ fs, ensure_shell_rc_exists homeDir (ensure_shell_rc_exists homeDir fs) =
      ensure_shell_rc_exists homeDir fs) ∧
    (∀ fs p, fsGet (setup_user_environment sessionId userHome userFiles
        (setup_user_environment sessionId userHome userFiles fs)) p =
      fsGet (setup_user_environment sessionId userHome userFiles fs) p) ∧
    (∀ fs, fsGet (setup_user_environment sessionId userHome userFiles fs)
        (pjoin userHome ".bashrc".data) = some (RcContent.appBashrc sessionId)) := by
  refine ⟨?_, ?_, ?_, ?_⟩
  · intro fs p hp
    unfold ensure_shell_rc_exists
    have h1 : fsHas (writeIfAbsent fs (pjoin homeDir ".bashrc".data)
        RcContent.backendBashrc) p = true := writeIfAbsent_has _ _ _ _ hp
    have h2 : fsHas (writeIfAbsent (writeIfAbsent fs (pjoin homeDir ".bashrc".data)
        RcContent.backendBashrc) (pjoin homeDir ".bash_history".data)
        RcContent.backendEmptyHistory) p = true := writeIfAbsent_has _ _ _ _ h1
    rw [writeIfAbsent_preserves _ _ _ _ h2, writeIfAbsent_preserves _ _ _ _ h1,
      writeIfAbsent_preserves _ _ _ _ hp]
  · intro fs
    obtain ⟨hb, hh, hv⟩ := ensure_has_artifacts homeDir fs
    generalize hE : ensure_shell_rc_exists homeDir fs = E at hb hh hv ⊢
    unfold ensure_shell_rc_exists
    rw [writeIfAbsent_of_has _ _ _ hb, writeIfAbsent_of_has _ _ _ hh,
      writeIfAbsent_of_has _ _ _ hv]
  · intro fs p
    rw [fsGet_setup, fsGet_setup]
    by_cases h1 : p = pjoin userFiles "example.py".data
    · simp [h1]
    · simp only [if_neg h1]
      by_cases h2 : p = pjoin userFiles "README.txt".data
      · simp [h2]
      · simp only [if_neg h2]
        by_cases h3 : p = pjoin userHome ".inputrc".data
        · simp [h3]
        · simp only [if_neg h3]
          by_cases h4 : p = pjoin userHome ".tmux.conf".data
          · simp [h4]
          · simp only [if_neg h4]
            by_cases h5 : p = pjoin userHome ".vimrc".data
            · simp [h5]
            · simp only [if_neg h5]
              by_cases h6 : p = pjoin userHome ".bash_history".data
              · simp [h6]
              · simp only [if_neg h6]
                by_cases h7 : p = pjoin userHome ".bash_profile".data
                · simp [h7]
                · simp only [if_neg h7]
                  by_cases h8 : p = pjoin userHome ".bashrc".data
                  · simp [h8]
                  · simp [if_neg h8]
  · intro fs
    rw [fsGet_setup]
    have hx1 : ¬ pjoin userHome ".bashrc".data = pjoin userFiles "example.py".data := by
      intro he
      have hlast := congrArg List.getLast? he
      rw [pjoin_getLast _ _ 'c' (by decide) (by decide),
        pjoin_getLast _ _ 'y' (by decide) (by decide)] at hlast
      exact absurd hlast (by decide)
    have hx2 : ¬ pjoin userHome ".bashrc".data = pjoin userFiles "README.txt".data := by
      intro he
      have hlast := congrArg List.getLast? he
      rw [pjoin_getLast _ _ 'c' (by decide) (by decide),
        pjoin_getLast _ _ 't' (by decide) (by decide)] at hlast
      exact absurd hlast (by decide)
    have hx3 : ¬ pjoin userHome ".bashrc".data = pjoin userHome ".inputrc".data :=
      fun he => absurd (pjoin_right_inj _ _ _ (by decide) (by decide) he) (by decide)
    have hx4 : ¬ pjoin userHome ".bashrc".data = pjoin userHome ".tmux.conf".data :=
      fun he => absurd (pjoin_right_inj _ _ _ (by decide) (by decide) he) (by decide)
    have hx5 : ¬ pjoin userHome ".bashrc".data = pjoin userHome ".vimrc".data :=
      fun he => absurd (pjoin_right_inj _ _ _ (by decide) (by decide) he) (by decide)
    have hx6 : ¬ pjoin userHome ".bashrc".data = pjoin userHome ".bash_history".data :=
      fun he => absurd (pjoin_right_inj _ _ _ (by decide) (by decide) he) (by decide)
    have hx7 : ¬ pjoin userHome ".bashrc".data = pjoin userHome ".bash_profile".data :=
      fun he => absurd (pjoin_right_inj _ _ _ (by decide) (by decide) he) (by decide)
    rw [if_neg hx1, if_neg hx2, if_neg hx3, if_neg hx4, if_neg hx5, if_neg hx6,
      if_neg hx7, if_pos rfl]

/-- A backend home directory whose `.bashrc` carries user content. -/
def fs9backend : RcFs :=
  fsSet [] (pjoin homeDemo ".bashrc".data) (.preexisting "user tuned rc")

/-- Witness for the amended claim C9: on a home directory whose `.bashrc`
already holds user content, the backend `_ensure_shell_rc_exists` leaves
that content exactly as it was. -/
theorem c9_rc_setup_write_if_absent_vs_overwrite_witness :
    fsGet (ensure_shell_rc_exists homeDemo fs9backend)
        (pjoin homeDemo ".bashrc".data) =
      fsGet fs9backend (pjoin homeDemo ".bashrc".data) :=
  (c9_rc_setup_write_if_absent_vs_overwrite "sess-1" homeDemo filesDemo homeDemo).1
    fs9backend (pjoin homeDemo ".bashrc".data) (by decide)

end Termux
